import Mathlib

/-!
# Verification of the ONE memory subsystem against its specification

This file gives a shallow embedding, in Lean 4, of the parts of the
repository that the checked claims are about:

* `src/core/retrieval/searcher.py` — `MemorySearcher._evaluate_memories`
  (the relevance-evaluation operation / RelevanceJudge) and `SearchConfig`;
* `src/core/retrieval/vector_store.py` — `VectorStore.search`;
* `src/core/retrieval/memory_retriever.py` — `MemoryRetriever.search_memories`,
  `add_memory`, `_cleanup_cache` and `_rerank_with_context`;
* `src/core/memory/storage.py` — `MemoryStorage.cleanup_old_memories`;
* `src/core/memory/snapshot.py` — `SnapshotManager.create_snapshot`;
* `src/core/memory/file_store.py` — `FileMemoryStore.delete` and
  `FileMemoryStore.create_detail_snapshot`;
* `src/core/memory/snapshot_manager.py` — `SnapshotManager.update_snapshots`.

Python `float` values are modelled as rationals (`ℚ`); where the code applies
the transcendental `math.log1p`, real numbers (`ℝ`) and `Real.log` are used.
JSON values produced by `json.loads` on the oracle's reply are modelled by the
inductive type `Json` below, together with executable models of the Python
truthiness test, dictionary lookup and `float(...)` coercion that the code
relies on.  Timestamps are modelled as seconds (numeric), matching the code's
use of `total_seconds()` / `time.time()`.
-/

/-- A JSON value as produced by Python's `json.loads` (numbers collapsed to
one numeric constructor, modelled as `ℚ`). -/
inductive Json where
  | null : Json
  | bool (b : Bool) : Json
  | num (q : ℚ) : Json
  | str (s : String) : Json
  | arr (items : List Json) : Json
  | obj (fields : List (String × Json)) : Json

/-- Python truthiness (`if not result: ...`) of a JSON value: `None`, `False`,
`0`, `""`, `[]` and `{}` are falsy. -/
def Json.pyTruthy : Json → Bool
  | .null => false
  | .bool b => b
  | .num q => q != 0
  | .str s => s != ""
  | .arr l => !l.isEmpty
  | .obj l => !l.isEmpty

/-- `isinstance(x, dict)`. -/
def Json.isObj : Json → Bool
  | .obj _ => true
  | _ => false

/-- `isinstance(x, list)`. -/
def Json.isArr : Json → Bool
  | .arr _ => true
  | _ => false

/-- Dictionary lookup `d.get(key)` / `key in d`; `none` for a missing key or a
non-dict value.  Dicts coming out of `json.loads` have unique keys, so first
match suffices. -/
def Json.lookup : Json → String → Option Json
  | .obj fields, k => (fields.find? (fun p => p.1 == k)).map (fun p => p.2)
  | _, _ => none

/-- Python `x == s` where `s` is a `str`: true only when `x` is an equal
string (comparison of a string with any other type yields `False`). -/
def Json.eqStr : Json → String → Bool
  | .str t, s => t == s
  | _, _ => false

/-- Value of a non-empty digit string. -/
def digitsVal (cs : List Char) : ℕ :=
  cs.foldl (fun n c => n * 10 + (c.toNat - 48)) 0

/-- Model of Python `float(s)` on a string: optional sign, then
`digits`, `digits.digits`, `.digits` or `digits.`.  (Python additionally
accepts surrounding whitespace, exponents and `inf`/`nan`; those forms are
outside the model — no claim depends on them.) -/
def pyFloatOfString (s : String) : Option ℚ :=
  let cs := s.toList
  let signAndRest : ℚ × List Char :=
    match cs with
    | '-' :: r => (-1, r)
    | '+' :: r => (1, r)
    | r => (1, r)
  let sign := signAndRest.1
  let rest := signAndRest.2
  let intPart := rest.takeWhile Char.isDigit
  let rest2 := rest.dropWhile Char.isDigit
  match rest2 with
  | [] =>
    if intPart.isEmpty then none
    else some (sign * (digitsVal intPart : ℚ))
  | '.' :: fracPart =>
    if fracPart.all Char.isDigit && !(intPart.isEmpty && fracPart.isEmpty) then
      some (sign * ((digitsVal intPart : ℚ) +
        (digitsVal fracPart : ℚ) / ((10 : ℚ) ^ fracPart.length)))
    else none
  | _ => none

/-- Model of Python `float(x)` on a JSON value: numbers pass through, booleans
coerce (`float(True) = 1.0`), numeric strings parse, everything else raises
`TypeError`/`ValueError` (modelled as `none`). -/
def pyFloat : Json → Option ℚ
  | .num q => some q
  | .bool b => some (if b then 1 else 0)
  | .str s => pyFloatOfString s
  | _ => none

/-- `Memory` (src/core/memory/base.py).  Fields not consulted by any embedded
operation (`context`, `conversation_id`, `memory_type`, `concepts`) are
omitted; `emotions` is kept as raw JSON values, matching the unvalidated
`List[Dict[str, Any]]` of the source. -/
structure Memory where
  memoryId : String
  content : String
  timestamp : ℚ
  importanceScore : ℚ
  emotions : List Json := []

/-- `SearchConfig` (src/core/retrieval/searcher.py lines 19-35), with the
defaults of `__post_init__`. -/
structure SearchConfig where
  maxResults : ℕ := 10
  minRelevance : ℚ := 6 / 10
  timeDecayFactor : ℚ := 1 / 10
  typeWeights : List (String × ℚ) :=
    [("working", 1), ("episodic", 8 / 10), ("semantic", 6 / 10)]
deriving Repr, DecidableEq

/-- `SearchResult` (searcher.py lines 37-51).  `reason` and
`usage_suggestion` are kept as the raw JSON values the code stringifies. -/
structure SearchResult where
  memory : Memory
  relevanceScore : ℚ
  reason : Json
  usageSuggestion : Json

/-- One iteration of the `for memory_result in result["relevant_memories"]`
loop of `MemorySearcher._evaluate_memories` (searcher.py lines 356-395):
`continue` is modelled as `none`.  An out-of-range or non-coercible
`relevance_score` is replaced by the default `0.0` (lines 372-380), after
which the `min_relevance` threshold test decides survival (line 382). -/
def processEntry (cfg : SearchConfig) (memories : List Memory) (e : Json) :
    Option SearchResult :=
  if !e.isObj then none
  else
    match e.lookup "memory_id" with
    | none => none
    | some mid =>
      if !mid.pyTruthy then none
      else
        match memories.find? (fun m => mid.eqStr m.memoryId) with
        | none => none
        | some m =>
          let relevanceScore : ℚ :=
            match e.lookup "relevance_score" with
            | none => 0
            | some v =>
              match pyFloat v with
              | none => 0
              | some q => if 0 ≤ q ∧ q ≤ 1 then q else 0
          if relevanceScore < cfg.minRelevance then none
          else some
            { memory := m
              relevanceScore := relevanceScore
              reason := (e.lookup "reason").getD (.str "未提供原因")
              usageSuggestion :=
                (e.lookup "usage_suggestion").getD (.str "未提供使用建议") }

/-- `MemorySearcher._evaluate_memories` (searcher.py lines 297-402), with the
oracle's parsed reply passed in as `result` (the code obtains it from
`llm_service.generate_json`; prompt construction and the emotion/concept
analysis only feed the prompt and do not affect the parsing).  The per-entry
loop with `continue` is a `filterMap`. -/
def evaluateMemories (cfg : SearchConfig) (memories : List Memory)
    (result : Json) : List SearchResult :=
  if memories.isEmpty then []
  else if !result.pyTruthy then []
  else if !result.isObj then []
  else
    match result.lookup "relevant_memories" with
    | none => []
    | some rm =>
      match rm with
      | .arr entries => entries.filterMap (processEntry cfg memories)
      | _ => []

/-- Shape rejection tested by C2: reply falsy (empty), not a dict, missing the
`relevant_memories` key, or that key not bound to a list. -/
def badResponseShape (r : Json) : Bool :=
  !r.pyTruthy || !r.isObj ||
    !(((r.lookup "relevant_memories").map Json.isArr).getD false)

/-! ## Structural equality for JSON values (Python `==` / set membership) -/

mutual
/-- Structural equality of JSON values (used to model Python `==` and set
membership on values extracted from parsed JSON). -/
def Json.beq : Json → Json → Bool
  | .null, .null => true
  | .bool a, .bool b => a == b
  | .num a, .num b => a == b
  | .str a, .str b => a == b
  | .arr a, .arr b => Json.beqList a b
  | .obj a, .obj b => Json.beqFields a b
  | _, _ => false
/-- Elementwise equality of JSON arrays. -/
def Json.beqList : List Json → List Json → Bool
  | [], [] => true
  | x :: xs, y :: ys => Json.beq x y && Json.beqList xs ys
  | _, _ => false
/-- Elementwise equality of JSON object field lists. -/
def Json.beqFields : List (String × Json) → List (String × Json) → Bool
  | [], [] => true
  | (k1, v1) :: xs, (k2, v2) :: ys => k1 == k2 && Json.beq v1 v2 && Json.beqFields xs ys
  | _, _ => false
end

instance : BEq Json := ⟨Json.beq⟩

/-! ## VectorStore.search (src/core/retrieval/vector_store.py lines 52-107)

The FAISS `IndexFlatL2` index holds one vector per added memory, in insertion
order (`id_map`/`memory_map`); `index.search(q, k)` returns the `k` nearest
stored vectors by squared L2 distance, in non-decreasing distance order.  The
embedding model (`model.encode`) is external: the query and stored vectors are
taken as given rationals. -/

/-- An entry of the vector store: memory id, stored embedding, and the
optional `metadata['importance']` the search consults. -/
structure VMemory where
  id : String
  vector : List ℚ
  importance : Option ℚ
deriving Repr, DecidableEq

/-- Squared L2 distance, the score returned by a FAISS `IndexFlatL2`. -/
def sqDist (u v : List ℚ) : ℚ :=
  ((u.zip v).map (fun p => (p.1 - p.2) ^ 2)).sum

/-- Comparison by distance (second component), for the FAISS ascending-order
result. -/
def distLe (a b : VMemory × ℚ) : Prop := a.2 ≤ b.2

instance : DecidableRel distLe := fun a b => inferInstanceAs (Decidable (a.2 ≤ b.2))

instance : IsTotal (VMemory × ℚ) distLe := ⟨fun a b => le_total a.2 b.2⟩

instance : IsTrans (VMemory × ℚ) distLe := ⟨fun _ _ _ h1 h2 => le_trans h1 h2⟩

/-- Comparison by score descending (`results.sort(key=..., reverse=True)`). -/
def scoreGe (a b : VMemory × ℚ) : Prop := b.2 ≤ a.2

instance : DecidableRel scoreGe := fun a b => inferInstanceAs (Decidable (b.2 ≤ a.2))

instance : IsTotal (VMemory × ℚ) scoreGe := ⟨fun a b => le_total b.2 a.2⟩

instance : IsTrans (VMemory × ℚ) scoreGe := ⟨fun _ _ _ h1 h2 => le_trans h2 h1⟩

/-- The FAISS `index.search` call: the `k` stored entries nearest to the
query, with their squared L2 distances, distance-ascending. -/
def faissSearch (store : List VMemory) (q : List ℚ) (k : ℕ) :
    List (VMemory × ℚ) :=
  (List.insertionSort distLe (store.map (fun m => (m, sqDist q m.vector)))).take k

/-- The body of the `for score, idx in zip(scores[0], indices[0])` loop
(vector_store.py lines 81-97): L2 distance turned into `1 / (1 + distance)`,
then the importance boost `final_score *= (1 + importance * 0.2)` when the
memory's metadata carries an importance. -/
def scoreOfDist : VMemory × ℚ → VMemory × ℚ :=
  fun e =>
    let similarity := 1 / (1 + e.2)
    let finalScore :=
      match e.1.importance with
      | some imp => similarity * (1 + imp * (2 / 10))
      | none => similarity
    (e.1, finalScore)

/-- `VectorStore.search` (vector_store.py lines 52-107): retrieves
`min(top_k * 2, len(id_map))` candidates from the FAISS index, converts each
distance to a similarity score with the importance boost, and sorts the
results by score descending.  Note that the `threshold` parameter is accepted
but never used by the body, and no truncation to `top_k` happens. -/
def VectorStore.search (store : List VMemory) (q : List ℚ) (top_k : ℕ)
    (threshold : ℚ) : List (VMemory × ℚ) :=
  let k := min (top_k * 2) store.length
  let results := (faissSearch store q k).map scoreOfDist
  List.insertionSort scoreGe results

/-! ## MemoryRetriever (src/core/retrieval/memory_retriever.py)

The retriever's cache maps a cache key (the string
`f"{query}_{top_k}_{threshold}_{hash(str(context))}"`, modelled as an opaque
string) to `{'results': ..., 'timestamp': time.time()}`.  The vector-search /
meta-snapshot / merge / rerank pipeline (steps 2-5 of `search_memories`) is
abstracted as a function `compute` of the underlying store and the key, since
no cached-entry claim depends on how the fresh results are produced. -/

/-- State of a `MemoryRetriever`: the query cache (key, results, creation
time) plus the underlying vector store, of abstract type `σ`. -/
structure RetrieverState (σ : Type) where
  cache : List (String × (List String × ℤ))
  store : σ

/-- Python dict assignment `d[k] = v` on an association list. -/
def assocUpsert {α : Type} (l : List (String × α)) (k : String) (v : α) :
    List (String × α) :=
  if l.any (fun p => p.1 == k) then
    l.map (fun p => if p.1 == k then (k, v) else p)
  else l ++ [(k, v)]

/-- `MemoryRetriever.search_memories` (memory_retriever.py lines 29-101):
serve from the cache on a fresh hit (step 1); otherwise compute the results
and store them in the cache under the key with the current time (step 6).
Returns the results together with the successor state. -/
def MemoryRetriever.search_memories {σ : Type} (compute : σ → String → List String)
    (cacheTtl : ℤ) (st : RetrieverState σ) (cacheKey : String) (now : ℤ) :
    List String × RetrieverState σ :=
  let fresh :=
    let res := compute st.store cacheKey
    (res, { st with cache := assocUpsert st.cache cacheKey (res, now) })
  match (st.cache.find? (fun p => p.1 == cacheKey)).map (fun p => p.2) with
  | some entry => if now - entry.2 < cacheTtl then (entry.1, st) else fresh
  | none => fresh

/-- `MemoryRetriever.add_memory` (memory_retriever.py lines 257-284): clears
the whole cache (`self._cache.clear()`), then adds the memory to the vector
store (abstracted as `applyAdd`). -/
def MemoryRetriever.add_memory {σ : Type} (applyAdd : σ → σ)
    (st : RetrieverState σ) : RetrieverState σ :=
  { cache := [], store := applyAdd st.store }

/-- `MemoryRetriever._cleanup_cache` (memory_retriever.py lines 242-255):
drop entries with `now - timestamp > ttl`. -/
def MemoryRetriever.cleanup_cache {σ : Type} (cacheTtl : ℤ)
    (st : RetrieverState σ) (now : ℤ) : RetrieverState σ :=
  { st with cache := st.cache.filter (fun p => !decide (cacheTtl < now - p.2.2)) }

/-- The cache-affecting operations that can run after an `add_memory`:
searches and the fire-and-forget cache cleanups. -/
inductive RetrieverOp where
  | search (cacheKey : String) (now : ℤ)
  | cleanup (now : ℤ)

/-- The wall-clock time at which an operation runs. -/
def RetrieverOp.time : RetrieverOp → ℤ
  | .search _ t => t
  | .cleanup t => t

/-- Run a sequence of retriever operations, threading the state. -/
def MemoryRetriever.run {σ : Type} (compute : σ → String → List String)
    (cacheTtl : ℤ) (st : RetrieverState σ) : List RetrieverOp → RetrieverState σ
  | [] => st
  | .search k t :: rest =>
    MemoryRetriever.run compute cacheTtl
      (MemoryRetriever.search_memories compute cacheTtl st k t).2 rest
  | .cleanup t :: rest =>
    MemoryRetriever.run compute cacheTtl
      (MemoryRetriever.cleanup_cache cacheTtl st t) rest

/-! ## MemoryRetriever._rerank_with_context (memory_retriever.py lines 186-240)

Per-entry score computation of the re-ranking loop.  Elapsed time
`time_diff = (current_time - memory_time).total_seconds()` is in seconds;
the code then applies `1 / (1 + log1p(time_diff / (24 * 3600)))`. -/

/-- Context fields consulted by the re-ranker.  `none` models a missing key. -/
structure RerankContext where
  user_id : Option String
  session_id : Option String
  topic : Option String
  enable_api_call : Bool

/-- The memory fields consulted by the re-ranker: creation timestamp (seconds)
and the metadata keys compared against the context. -/
structure RerankMemory where
  timestamp : Option ℚ
  meta_user_id : Option String
  meta_session_id : Option String
  meta_topic : Option String
  has_api_call : Bool

/-- `'user_id' in context and memory.get('metadata', {}).get('user_id') ==
context['user_id']` (same shape for `session_id`). -/
def fieldMatch (ctxField : Option String) (metaField : Option String) : Bool :=
  match ctxField with
  | none => false
  | some u => metaField == some u

/-- `'topic' in context and 'topic' in memory.get('metadata', {}) and
context['topic'] == memory['metadata']['topic']`. -/
def topicMatch (ctxTopic metaTopic : Option String) : Bool :=
  match ctxTopic, metaTopic with
  | some a, some b => a == b
  | _, _ => false

/-- The product of the four context boosts applied after the time decay
(lines 211-230): user ×1.2, session ×1.1, topic ×1.15, API ×1.1. -/
def boostFactor (m : RerankMemory) (ctx : RerankContext) : ℚ :=
  (if fieldMatch ctx.user_id m.meta_user_id then 12 / 10 else 1) *
  (if fieldMatch ctx.session_id m.meta_session_id then 11 / 10 else 1) *
  (if topicMatch ctx.topic m.meta_topic then 23 / 20 else 1) *
  (if ctx.enable_api_call && m.has_api_call then 11 / 10 else 1)

/-- The time-decay multiplier the code applies to the score
(lines 203-208): `1.0 / (1.0 + math.log1p(time_diff / (24 * 3600)))` where
`time_diff` is the elapsed time in seconds. -/
noncomputable def timeFactor (timeDiff : ℚ) : ℝ :=
  1 / (1 + Real.log (1 + (timeDiff : ℝ) / (24 * 3600)))

/-- The decay factor stated by the specification, `1 / (1 + log(1 +
hoursSinceCreation))`: the elapsed seconds divided by 3600.  (Spec-side
definition, for comparison with `timeFactor` which divides by `24 * 3600`.) -/
noncomputable def specHoursFactor (timeDiff : ℚ) : ℝ :=
  1 / (1 + Real.log (1 + (timeDiff : ℝ) / 3600))

/-- The final score of one `(memory, score)` pair in
`MemoryRetriever._rerank_with_context` (lines 198-232), applying the time
decay and then each conditional boost in source order. -/
noncomputable def MemoryRetriever.rerank_score (m : RerankMemory) (score : ℝ)
    (ctx : RerankContext) (now : ℚ) : ℝ :=
  let s1 :=
    match m.timestamp with
    | some ts => score * (1 / (1 + Real.log (1 + ((now - ts : ℚ) : ℝ) / (24 * 3600))))
    | none => score
  let s2 := if fieldMatch ctx.user_id m.meta_user_id then s1 * (12 / 10) else s1
  let s3 := if fieldMatch ctx.session_id m.meta_session_id then s2 * (11 / 10) else s2
  let s4 := if topicMatch ctx.topic m.meta_topic then s3 * (23 / 20) else s3
  if ctx.enable_api_call && m.has_api_call then s4 * (11 / 10) else s4

/-! ## MemoryStorage.cleanup_old_memories (src/core/memory/storage.py lines 235-287)

The storage index has three tables (`memories`, `snapshots`,
`meta_snapshots`), each mapping an id to a record whose `timestamp` is set at
save time.  Cleanup walks each table and deletes every entry whose own index
timestamp is older than the cutoff.  The stored snapshot data (including its
`memory_refs`) lives in the snapshot's file, deleted together with its index
entry; surviving snapshots keep their `memory_refs` untouched. -/

/-- A stored snapshot: its id, its index timestamp, and the `memory_refs` list
in its data file. -/
structure StorageSnapEntry where
  id : String
  timestamp : ℚ
  memoryRefs : List String
deriving Repr, DecidableEq

/-- The `MemoryStorage` index together with the snapshot files' refs. -/
structure StorageState where
  memories : List (String × ℚ)
  snapshots : List StorageSnapEntry
  metaSnapshots : List (String × ℚ)
deriving Repr, DecidableEq

/-- `MemoryStorage.cleanup_old_memories` (storage.py lines 235-287): each of
the three tables keeps exactly the entries with `timestamp < cutoff` removed;
nothing else is touched. -/
def MemoryStorage.cleanup_old_memories (st : StorageState) (cutoff : ℚ) :
    StorageState :=
  { memories := st.memories.filter (fun p => if p.2 < cutoff then false else true)
    snapshots := st.snapshots.filter (fun s => if s.timestamp < cutoff then false else true)
    metaSnapshots := st.metaSnapshots.filter (fun p => if p.2 < cutoff then false else true) }

/-! ## SnapshotManager.create_snapshot (src/core/memory/snapshot.py lines 184-198) -/

/-- `BaseMemory` (snapshot.py lines 17-40); the `context` dict is not
consulted by the embedded operations. -/
structure BaseMemory where
  id : String
  content : String
  timestamp : ℚ

/-- `MemorySnapshot` (snapshot.py lines 42-71). -/
structure MemorySnapshot where
  id : String
  key_points : List String
  memory_refs : List String
  category : String
  timestamp : ℚ
  importance : ℚ

/-- In-memory state of the snapshot.py `SnapshotManager`: the `memories` and
`snapshots` dicts, keyed by the objects' own ids. -/
structure SnapMgrState where
  memories : List BaseMemory
  snapshots : List MemorySnapshot

/-- `SnapshotManager.create_snapshot` (snapshot.py lines 184-198): raises
`ValueError` (modelled as `.error`) on the first memory id not present in
`self.memories`; otherwise builds the snapshot (fresh uuid `freshId`, current
time `now`) and stores it.  On error nothing is created or stored. -/
def SnapshotManager.create_snapshot (st : SnapMgrState) (key_points : List String)
    (memory_ids : List String) (category : String) (importance : ℚ)
    (freshId : String) (now : ℚ) : Except String (MemorySnapshot × SnapMgrState) :=
  match memory_ids.find? (fun mid => !(st.memories.any (fun m => m.id == mid))) with
  | some mid => .error ("Memory " ++ mid ++ " not found")
  | none =>
    let snapshot : MemorySnapshot :=
      { id := freshId, key_points := key_points, memory_refs := memory_ids,
        category := category, timestamp := now, importance := importance }
    .ok (snapshot, { st with snapshots := st.snapshots ++ [snapshot] })

/-! ## FileMemoryStore (src/core/memory/file_store.py)

One file per memory (`memories/<id>.json`), one per detail snapshot
(`snapshots/detail/<id>.json`), plus the three association indexes the store
keeps in memory and mirrors to disk.  Python `set`s are modelled as
duplicate-free lists in insertion order (`set.add` appends if absent). -/

/-- `DetailSnapshot` (src/core/memory/base.py lines 149-167).  `emotion_tags`
keeps the raw JSON values extracted from the memories' `emotions` dicts. -/
structure DetailSnapshot where
  snapshotId : String
  summary : String
  keyElements : List String
  emotionTags : List Json
  memoryIds : List String
  timestamp : ℚ

/-- State of a `FileMemoryStore`: memory files, detail-snapshot files, and the
three association indexes (`memory_snapshot_index`, `snapshot_memory_index`,
`base_detail_index`). -/
structure FileStoreState where
  memories : List Memory
  detailSnapshots : List DetailSnapshot
  memory_snapshot_index : List (String × List String)
  snapshot_memory_index : List (String × List String)
  base_detail_index : List (String × List String)

/-- `FileMemoryStore.delete` (file_store.py lines 153-181): unlink the memory
file if it exists, then — only when the memory appears in
`memory_snapshot_index` — discard the id from each associated snapshot's
`snapshot_memory_index` entry and drop the memory's own index entry.  Returns
`True` in every non-exceptional run (our model has no I/O failures), whether
or not the memory existed. -/
def FileMemoryStore.delete (st : FileStoreState) (memory_id : String) :
    Bool × FileStoreState :=
  let memories := st.memories.filter (fun m => !(m.memoryId == memory_id))
  match st.memory_snapshot_index.find? (fun p => p.1 == memory_id) with
  | some entry =>
    let snapshot_ids := entry.2
    let smi := snapshot_ids.foldl (fun idx sid =>
      if idx.any (fun p => p.1 == sid) then
        idx.map (fun p =>
          if p.1 == sid then (p.1, p.2.filter (fun x => !(x == memory_id))) else p)
      else idx) st.snapshot_memory_index
    let msi := st.memory_snapshot_index.filter (fun p => !(p.1 == memory_id))
    (true, { st with memories := memories, snapshot_memory_index := smi,
                     memory_snapshot_index := msi })
  | none => (true, { st with memories := memories })

/-- `e['type']` of an emotion entry when it is a dict containing `'type'`
(file_store.py lines 239-242). -/
def emotionTypeOf (e : Json) : Option Json :=
  match e with
  | .obj fs => (fs.find? (fun p => p.1 == "type")).map (fun p => p.2)
  | _ => none

/-- Python `str.split()` (split on whitespace runs, dropping empties). -/
def pySplit (s : String) : List String :=
  (s.split Char.isWhitespace).filter (fun w => !(w == ""))

/-- `set.add` / `set.update` on a duplicate-free list: append when absent. -/
def setAdd (l : List String) (x : String) : List String :=
  if l.contains x then l else l ++ [x]

/-- `FileMemoryStore.create_detail_snapshot` (file_store.py lines 230-277):
builds the snapshot from the *passed-in* memory objects — taking their
contents, emotion types and ids — writes its file, and records the
memory↔snapshot associations.  At no point does it check that the passed
memories exist in the store. `nowTag` stands for
`datetime.now().strftime(...)` in the generated snapshot id and `now` for the
snapshot timestamp. -/
def FileMemoryStore.create_detail_snapshot (st : FileStoreState) (nowTag : String)
    (now : ℚ) (memories : List Memory) : DetailSnapshot × FileStoreState :=
  let snapshot_id := "detail_" ++ nowTag
  let memory_contents := memories.map (fun m => m.content)
  let memory_emotions := memories.foldl
    (fun acc m => acc ++ m.emotions.filterMap emotionTypeOf) []
  let memory_ids := memories.map (fun m => m.memoryId)
  let snapshot : DetailSnapshot :=
    { snapshotId := snapshot_id
      summary := String.intercalate "\n" (memory_contents.take 3)
      keyElements := ((memory_contents.map (fun c => (pySplit c).take 10)).join).eraseDups
      emotionTags := memory_emotions.eraseDups
      memoryIds := memory_ids
      timestamp := now }
  let msi := memory_ids.foldl (fun idx mid =>
      let idx1 := if idx.any (fun p => p.1 == mid) then idx else idx ++ [(mid, [])]
      idx1.map (fun p => if p.1 == mid then (p.1, setAdd p.2 snapshot_id) else p))
    st.memory_snapshot_index
  let smi0 :=
    if st.snapshot_memory_index.any (fun p => p.1 == snapshot_id) then
      st.snapshot_memory_index
    else st.snapshot_memory_index ++ [(snapshot_id, [])]
  let smi := smi0.map (fun p =>
    if p.1 == snapshot_id then (p.1, memory_ids.foldl setAdd p.2) else p)
  (snapshot, { st with detailSnapshots := st.detailSnapshots ++ [snapshot],
                       memory_snapshot_index := msi, snapshot_memory_index := smi })

/-! ## SnapshotManager.update_snapshots (src/core/memory/snapshot_manager.py lines 58-106)

The decisive structure of one consolidation call is:

* line 62-64: `if now - self.last_update < self.update_interval: return` —
  the whole cycle is skipped, nothing runs;
* line 71-73: `memories = self.memory_store.list(); if not memories: return`
  — again nothing runs and `last_update` is *not* advanced;
* lines 76-101: the cycle body (grouping by day, detail-snapshot tasks, base
  snapshots, optimization, stats), at the end of which (line 102)
  `self.last_update = now`.

The cycle body only reads and writes the memory store, so it is abstracted
here as an arbitrary store transformation `cycleBody`; the two guards and the
`last_update` assignment — the code that decides claim C7 — are modelled
exactly.  (Every failure inside the body is caught by the body's own
`except` blocks, so in the source the body always runs to completion and the
assignment on line 102 is always reached.)  Times are in seconds. -/

/-- `SnapshotManager` state: `last_update` plus the memory store (abstract
type `σ`, projected to its memory list by `listMemories`). -/
structure SMState (σ : Type) where
  lastUpdate : ℤ
  store : σ

/-- `SnapshotManager.update_snapshots` (snapshot_manager.py lines 58-106). -/
def SnapshotManager.update_snapshots {σ : Type} (listMemories : σ → List Memory)
    (cycleBody : σ → ℤ → σ) (updateInterval : ℤ) (s : SMState σ) (now : ℤ) :
    SMState σ :=
  if now - s.lastUpdate < updateInterval then s
  else if (listMemories s.store).isEmpty then s
  else { lastUpdate := now, store := cycleBody s.store now }

/-! ## Concrete sample values used by witnesses and counterexamples -/

/-- A sample stored memory. -/
def sampleMemory : Memory :=
  { memoryId := "m1", content := "hello world", timestamp := 0, importanceScore := 1 / 2 }

/-- An oracle reply whose single candidate carries the out-of-range score 1.7. -/
def respOutOfRange : Json :=
  .obj [("relevant_memories", .arr
    [.obj [("memory_id", .str "m1"), ("relevance_score", .num (17 / 10))]])]

/-- An oracle reply whose single candidate is well-formed with score 0.55. -/
def respScore55 : Json :=
  .obj [("relevant_memories", .arr
    [.obj [("memory_id", .str "m1"), ("relevance_score", .num (11 / 20)),
           ("reason", .str "match")]])]

/-- A structurally malformed oracle reply: a dict without `relevant_memories`. -/
def respNoKey : Json := .obj [("foo", .num 1)]

/-- An oracle reply whose single candidate is well-formed with score 0.6. -/
def respScore60 : Json :=
  .obj [("relevant_memories", .arr
    [.obj [("memory_id", .str "m1"), ("relevance_score", .num (6 / 10)),
           ("reason", .str "match")]])]

/-- An oracle reply with an empty `relevant_memories` array. -/
def respEmptyRM : Json := .obj [("relevant_memories", .arr [])]

/-- An empty `FileMemoryStore`. -/
def emptyFileStore : FileStoreState :=
  { memories := [], detailSnapshots := [], memory_snapshot_index := [],
    snapshot_memory_index := [], base_detail_index := [] }

/-- A `FileMemoryStore` holding `sampleMemory` and its index entries. -/
def fsWithM1 : FileStoreState :=
  { memories := [sampleMemory], detailSnapshots := [],
    memory_snapshot_index := [("m1", ["s1"])],
    snapshot_memory_index := [("s1", ["m1"])], base_detail_index := [] }

/-- A storage state with one old memory (t=0) referenced by one young
snapshot (t=100). -/
def storageBefore : StorageState :=
  { memories := [("m1", 0)],
    snapshots := [{ id := "s1", timestamp := 100, memoryRefs := ["m1"] }],
    metaSnapshots := [] }

/-- A snapshot.py `SnapshotManager` holding the single memory `m1`. -/
def snapMgrM1 : SnapMgrState :=
  { memories := [{ id := "m1", content := "hello", timestamp := 0 }],
    snapshots := [] }

/-- The snapshot created from `snapMgrM1` for its memory `m1`. -/
def createdSnap : MemorySnapshot :=
  { id := "s1", key_points := ["k"], memory_refs := ["m1"], category := "c",
    timestamp := 0, importance := 1 / 2 }

/-- `snapMgrM1` after storing `createdSnap`. -/
def snapMgrM1After : SnapMgrState :=
  { memories := snapMgrM1.memories, snapshots := [createdSnap] }

/-! # Theorems -/

/-! ## Helper lemmas about the relevance-evaluation operation -/

/-- A successful key lookup implies the value was a dict. -/
theorem Json.isObj_of_lookup {r : Json} {k : String} {v : Json}
    (h : r.lookup k = some v) : r.isObj = true := by
  cases r <;> simp [Json.lookup, Json.isObj] at h ⊢

/-- An entry whose `relevance_score` is present but non-coercible or out of
`[0,1]` contributes nothing when the configured threshold is positive: its
score collapses to the default `0.0`, which fails the `min_relevance` test. -/
theorem processEntry_eq_none_of_bad_score (cfg : SearchConfig)
    (hmin : 0 < cfg.minRelevance) (memories : List Memory) (e v : Json)
    (hv : e.lookup "relevance_score" = some v)
    (hbad : pyFloat v = none ∨ ∃ q, pyFloat v = some q ∧ (q < 0 ∨ 1 < q)) :
    processEntry cfg memories e = none := by
  have hobj := Json.isObj_of_lookup hv
  cases hm : e.lookup "memory_id" with
  | none => simp [processEntry, hobj, hm]
  | some mid =>
    by_cases ht : mid.pyTruthy = true
    · cases hf : memories.find? (fun m => mid.eqStr m.memoryId) with
      | none => simp [processEntry, hobj, hm, ht, hf]
      | some m =>
        rcases hbad with hnone | ⟨q, hq, hout⟩
        · simp [processEntry, hobj, hm, ht, hf, hv, hnone, hmin]
        · have hcond : ¬(0 ≤ q ∧ q ≤ 1) := by
            rcases hout with h1 | h1
            · exact fun hc => absurd hc.1 (not_le.mpr h1)
            · exact fun hc => absurd hc.2 (not_le.mpr h1)
          simp [processEntry, hobj, hm, ht, hf, hv, hq, hcond, hmin]
    · simp [processEntry, hobj, hm, ht]

/-- Any member of the evaluation output arises from some entry of the reply. -/
theorem exists_entry_of_mem_evaluateMemories {cfg : SearchConfig}
    {memories : List Memory} {r : Json} {sr : SearchResult}
    (h : sr ∈ evaluateMemories cfg memories r) :
    ∃ e, processEntry cfg memories e = some sr := by
  unfold evaluateMemories at h
  split at h
  · simp at h
  · split at h
    · simp at h
    · split at h
      · simp at h
      · split at h
        · simp at h
        · split at h
          · rcases List.mem_filterMap.mp h with ⟨e, _, hpe⟩
            exact ⟨e, hpe⟩
          · simp at h

/-- Every retained entry passed the `min_relevance` threshold. -/
theorem minRelevance_le_of_processEntry {cfg : SearchConfig}
    {memories : List Memory} {e : Json} {sr : SearchResult}
    (h : processEntry cfg memories e = some sr) :
    cfg.minRelevance ≤ sr.relevanceScore := by
  unfold processEntry at h
  split at h
  · exact absurd h (by simp)
  · split at h
    · exact absurd h (by simp)
    · split at h
      · exact absurd h (by simp)
      · split at h
        · exact absurd h (by simp)
        · dsimp only at h
          split at h
          · exact absurd h (by simp)
          · rename_i hlt
            rw [← Option.some.inj h]
            exact not_lt.mp hlt

/-- Under the shape checks of lines 338-352, the evaluation is the filtered
per-entry loop. -/
theorem evaluateMemories_eq_filterMap {cfg : SearchConfig}
    {memories : List Memory} {r : Json} {entries : List Json}
    (hne : memories.isEmpty = false) (ht : r.pyTruthy = true)
    (hl : r.lookup "relevant_memories" = some (.arr entries)) :
    evaluateMemories cfg memories r =
      entries.filterMap (processEntry cfg memories) := by
  have hobj := Json.isObj_of_lookup hl
  simp [evaluateMemories, hne, ht, hobj, hl]

/-- Claim C1 (amended): the code does not clamp an out-of-range
`relevance_score`, it replaces it (like a non-coercible one) by the default
`0.0`; whenever the configured `min_relevance` is positive — as under the
default configuration, where it is 0.6 — such a candidate is therefore
dropped from the returned result list, and the remaining entries of the batch
are processed exactly as if the bad entry were absent.  (With
`min_relevance = 0` the zeroed entry would survive; see the counterexample.) -/
theorem c1_out_of_range_score_dropped (cfg : SearchConfig)
    (hmin : 0 < cfg.minRelevance) (memories : List Memory)
    (pre post : List Json) (e v : Json)
    (hv : e.lookup "relevance_score" = some v)
    (hbad : pyFloat v = none ∨ ∃ q, pyFloat v = some q ∧ (q < 0 ∨ 1 < q))
    (r1 r2 : Json)
    (h1 : r1.lookup "relevant_memories" = some (.arr (pre ++ e :: post)))
    (h1t : r1.pyTruthy = true)
    (h2 : r2.lookup "relevant_memories" = some (.arr (pre ++ post)))
    (h2t : r2.pyTruthy = true) :
    evaluateMemories cfg memories r1 = evaluateMemories cfg memories r2 := by
  by_cases hm : memories.isEmpty
  · simp [evaluateMemories, hm]
  · have hm' : memories.isEmpty = false := by simpa using hm
    rw [evaluateMemories_eq_filterMap hm' h1t h1,
        evaluateMemories_eq_filterMap hm' h2t h2]
    simp [List.filterMap_append, List.filterMap_cons,
      processEntry_eq_none_of_bad_score cfg hmin memories e v hv hbad]

/-- Claim C1 counterexample: the claim as stated quantifies over *every* call
to the relevance evaluation.  With `min_relevance` configured to `0`, the
candidate with `relevance_score = 1.7` is *not* dropped: it is returned with
the substituted default score `0.0`.  So out-of-range scores are zeroed, not
dropped per se; dropping only happens through the threshold test. -/
theorem c1_counterexample :
    (evaluateMemories { minRelevance := 0 } [sampleMemory] respOutOfRange).map
      (fun r => (r.memory.memoryId, r.relevanceScore)) = [("m1", 0)] := by
  simp [evaluateMemories, processEntry, respOutOfRange, sampleMemory,
    Json.lookup, Json.pyTruthy, Json.isObj, Json.eqStr, pyFloat,
    List.find?, List.filterMap]
  norm_num

/-- Claim C1 witness: the amended theorem applied at the default
configuration (`min_relevance = 0.6`), a one-candidate batch and the reply
whose single entry has score 1.7: the result equals the evaluation of the
reply with the entry removed. -/
theorem c1_witness :
    (0 : ℚ) < ({} : SearchConfig).minRelevance ∧
    evaluateMemories {} [sampleMemory] respOutOfRange =
      evaluateMemories {} [sampleMemory] respEmptyRM :=
  ⟨by norm_num [SearchConfig.minRelevance],
   c1_out_of_range_score_dropped {} (by norm_num [SearchConfig.minRelevance])
     [sampleMemory] [] []
     (.obj [("memory_id", .str "m1"), ("relevance_score", .num (17 / 10))])
     (.num (17 / 10)) rfl
     (Or.inr ⟨17 / 10, rfl, Or.inr (by norm_num)⟩)
     respOutOfRange respEmptyRM rfl rfl rfl rfl⟩

/-- Claim C2: a reply that is falsy, or not a dict, or lacks the
`relevant_memories` key, or binds it to a non-list, makes the evaluation
return `[]`; the function is total, so no exception propagates. -/
theorem c2_malformed_reply_returns_empty (cfg : SearchConfig)
    (memories : List Memory) (r : Json) (h : badResponseShape r = true) :
    evaluateMemories cfg memories r = [] := by
  simp only [badResponseShape, Bool.or_eq_true] at h
  rcases h with (h | h) | h
  · simp [evaluateMemories, h, ite_self]
  · simp [evaluateMemories, h, ite_self]
  · cases hl : r.lookup "relevant_memories" with
    | none => simp [evaluateMemories, hl, ite_self]
    | some v =>
      rw [hl] at h
      simp only [Option.map_some', Option.getD_some, Bool.not_eq_true] at h
      cases v with
      | arr l => simp [Json.isArr] at h
      | null => simp [evaluateMemories, hl, ite_self]
      | bool b => simp [evaluateMemories, hl, ite_self]
      | num q => simp [evaluateMemories, hl, ite_self]
      | str s => simp [evaluateMemories, hl, ite_self]
      | obj fs => simp [evaluateMemories, hl, ite_self]

/-- Claim C2 witness: the theorem applied to a dict reply missing the
`relevant_memories` key, with a non-empty candidate list. -/
theorem c2_witness :
    badResponseShape respNoKey = true ∧
    evaluateMemories {} [sampleMemory] respNoKey = [] :=
  ⟨by rfl, c2_malformed_reply_returns_empty {} [sampleMemory] respNoKey (by rfl)⟩

/-- Claim C3 counterexample: under the default configuration the hard
threshold is `min_relevance = 0.6`, not 0.5.  A well-formed candidate entry
with score 0.55 — which the claim says must appear in the result — is
excluded: the evaluation returns the empty list. -/
theorem c3_counterexample :
    evaluateMemories {} [sampleMemory] respScore55 = [] := by
  simp [evaluateMemories, processEntry, respScore55, sampleMemory, Json.lookup,
    Json.pyTruthy, Json.isObj, Json.eqStr, pyFloat, List.find?, List.filterMap]
  norm_num

/-- Claim C3 (amended): the retention threshold of the relevance evaluation is
the configured `min_relevance` (0.6 by default), not 0.5: every returned entry
has score at least `min_relevance`, and every well-formed entry — resolving
`memory_id`, coercible in-range score — with score at least `min_relevance`
contributes a result entry carrying exactly that memory and score. -/
theorem c3_threshold_is_min_relevance (cfg : SearchConfig)
    (memories : List Memory) (r : Json) :
    (∀ sr ∈ evaluateMemories cfg memories r,
      cfg.minRelevance ≤ sr.relevanceScore) ∧
    (∀ entries e mid m v q,
      r.lookup "relevant_memories" = some (.arr entries) →
      r.pyTruthy = true → memories.isEmpty = false → e ∈ entries →
      e.lookup "memory_id" = some (.str mid) → mid ≠ "" →
      memories.find? (fun m2 => Json.eqStr (.str mid) m2.memoryId) = some m →
      e.lookup "relevance_score" = some v → pyFloat v = some q →
      0 ≤ q → q ≤ 1 → cfg.minRelevance ≤ q →
      ∃ sr ∈ evaluateMemories cfg memories r,
        sr.memory = m ∧ sr.relevanceScore = q) := by
  constructor
  · intro sr hsr
    obtain ⟨e, hpe⟩ := exists_entry_of_mem_evaluateMemories hsr
    exact minRelevance_le_of_processEntry hpe
  · intro entries e mid m v q hl ht hne he hmid hmid' hfind hv hq hq0 hq1 hmin
    have hobj := Json.isObj_of_lookup hmid
    have hnlt : ¬(q < cfg.minRelevance) := not_lt.mpr hmin
    have htr : (Json.str mid).pyTruthy = true := by
      simp [Json.pyTruthy, hmid']
    have hpe : processEntry cfg memories e = some
        { memory := m, relevanceScore := q,
          reason := (e.lookup "reason").getD (.str "未提供原因"),
          usageSuggestion :=
            (e.lookup "usage_suggestion").getD (.str "未提供使用建议") } := by
      simp [processEntry, hobj, hmid, htr, hfind, hv, hq, hq0, hq1, hnlt]
    rw [evaluateMemories_eq_filterMap hne ht hl]
    exact ⟨_, List.mem_filterMap.mpr ⟨e, he, hpe⟩, rfl, rfl⟩

/-- Claim C3 witness: the amended theorem applied at the default
configuration and a reply whose single well-formed entry scores exactly 0.6:
that entry appears in the result with its score. -/
theorem c3_witness :
    ∃ sr ∈ evaluateMemories {} [sampleMemory] respScore60,
      sr.memory = sampleMemory ∧ sr.relevanceScore = 6 / 10 :=
  (c3_threshold_is_min_relevance {} [sampleMemory] respScore60).2
    [.obj [("memory_id", .str "m1"), ("relevance_score", .num (6 / 10)),
           ("reason", .str "match")]]
    (.obj [("memory_id", .str "m1"), ("relevance_score", .num (6 / 10)),
           ("reason", .str "match")])
    "m1" sampleMemory (.num (6 / 10)) (6 / 10)
    rfl rfl rfl (List.mem_singleton.mpr rfl) rfl (by simp) rfl rfl rfl
    (by norm_num) (by norm_num) (le_of_eq rfl)

/-- A filter keep-test of the shape the cleanup loops use. -/
theorem if_keep_iff {c : Prop} [Decidable c] :
    ((if c then false else true) = true) ↔ ¬c := by
  by_cases h : c <;> simp [h]

/-- Claim C5 counterexample: cleanup at cutoff 50 removes the memory created
at t=0 but keeps the snapshot created at t=100 — whose `memory_refs` still
names the removed memory — unchanged: no cascade deletion and no flagging
happens, refuting the claim at this concrete state. -/
theorem c5_counterexample :
    MemoryStorage.cleanup_old_memories storageBefore 50 =
      { memories := [],
        snapshots := [{ id := "s1", timestamp := 100, memoryRefs := ["m1"] }],
        metaSnapshots := [] } := by
  norm_num [MemoryStorage.cleanup_old_memories, storageBefore, List.filter]

/-- Claim C5 (amended): `cleanup_old_memories` removes memories, snapshots and
meta-snapshots each purely by their own index timestamps — an entry survives
iff its timestamp is not before the cutoff — and a surviving snapshot keeps
its `memory_refs` untouched even when they reference removed memories. -/
theorem c5_cleanup_is_per_table_timestamp_filter (st : StorageState) (cutoff : ℚ) :
    (∀ p, p ∈ (MemoryStorage.cleanup_old_memories st cutoff).memories ↔
      p ∈ st.memories ∧ ¬(p.2 < cutoff)) ∧
    (∀ s, s ∈ (MemoryStorage.cleanup_old_memories st cutoff).snapshots ↔
      s ∈ st.snapshots ∧ ¬(s.timestamp < cutoff)) ∧
    (∀ p, p ∈ (MemoryStorage.cleanup_old_memories st cutoff).metaSnapshots ↔
      p ∈ st.metaSnapshots ∧ ¬(p.2 < cutoff)) := by
  refine ⟨fun p => ?_, fun s => ?_, fun p => ?_⟩ <;>
    simp [MemoryStorage.cleanup_old_memories, List.mem_filter, if_keep_iff]

/-- Claim C5 witness: the amended characterization applied to the concrete
state of the counterexample: the young snapshot survives because only its own
timestamp is consulted. -/
theorem c5_witness :
    (⟨"s1", (100 : ℚ), ["m1"]⟩ : StorageSnapEntry) ∈
        (MemoryStorage.cleanup_old_memories storageBefore 50).snapshots ↔
      (⟨"s1", (100 : ℚ), ["m1"]⟩ : StorageSnapEntry) ∈ storageBefore.snapshots ∧
        ¬((100 : ℚ) < 50) :=
  (c5_cleanup_is_per_table_timestamp_filter storageBefore 50).2.1 ⟨"s1", 100, ["m1"]⟩

/-- Claim C6 counterexample: `FileMemoryStore.create_detail_snapshot` called
on an *empty* store with a memory object that is not stored succeeds and
stores a snapshot whose `memory_ids` name a memory absent from the store —
no validation error is raised, refuting the claim for this creation path. -/
theorem c6_counterexample :
    (FileMemoryStore.create_detail_snapshot emptyFileStore "t0" 0
        [sampleMemory]).1.memoryIds = ["m1"] ∧
    ((FileMemoryStore.create_detail_snapshot emptyFileStore "t0" 0
        [sampleMemory]).2.detailSnapshots.map (fun s => s.memoryIds)) = [["m1"]] ∧
    (FileMemoryStore.create_detail_snapshot emptyFileStore "t0" 0
        [sampleMemory]).2.memories = [] := by
  refine ⟨?_, ?_, ?_⟩ <;>
    simp [FileMemoryStore.create_detail_snapshot, emptyFileStore, sampleMemory]

/-- Claim C6 (amended): the snapshot.py `SnapshotManager.create_snapshot`
path does enforce the invariant — a dangling memory id makes it raise
`ValueError` with nothing stored, and a successful creation has every
`memory_refs` entry resolving in `self.memories` — but the
`FileMemoryStore.create_detail_snapshot` path performs no such validation
(see the counterexample). -/
theorem c6_create_snapshot_validates (st : SnapMgrState) (key_points : List String)
    (memory_ids : List String) (category : String) (importance : ℚ)
    (freshId : String) (now : ℚ) :
    ((∃ mid ∈ memory_ids, ∀ m ∈ st.memories, m.id ≠ mid) →
      ∃ msg, SnapshotManager.create_snapshot st key_points memory_ids category
          importance freshId now = .error msg) ∧
    (∀ snap st2, SnapshotManager.create_snapshot st key_points memory_ids category
        importance freshId now = .ok (snap, st2) →
      (∀ mid ∈ snap.memory_refs, ∃ m ∈ st.memories, m.id = mid) ∧
      snap ∈ st2.snapshots) := by
  constructor
  · rintro ⟨mid, hmem, hall⟩
    have hpred : (memory_ids.find?
        (fun mid2 => !(st.memories.any (fun m => m.id == mid2)))).isSome := by
      rw [List.find?_isSome]
      refine ⟨mid, hmem, ?_⟩
      simp only [Bool.not_eq_true', List.any_eq_false, beq_iff_eq]
      exact fun m hm => hall m hm
    obtain ⟨mid0, h0⟩ := Option.isSome_iff_exists.mp hpred
    refine ⟨"Memory " ++ mid0 ++ " not found", ?_⟩
    unfold SnapshotManager.create_snapshot
    rw [h0]
  · intro snap st2 hok
    unfold SnapshotManager.create_snapshot at hok
    cases hfind : memory_ids.find?
        (fun mid => !(st.memories.any (fun m => m.id == mid))) with
    | some mid =>
      rw [hfind] at hok
      exact absurd hok (by simp)
    | none =>
      rw [hfind] at hok
      have hp := Except.ok.inj hok
      have hsnap : snap =
          { id := freshId, key_points := key_points, memory_refs := memory_ids,
            category := category, timestamp := now, importance := importance } :=
        (congrArg Prod.fst hp).symm
      have hst2 : st2 = { st with snapshots := st.snapshots ++ [snap] } := by
        rw [hsnap]
        exact (congrArg Prod.snd hp).symm
      constructor
      · intro mid hmid
        have hmid' : mid ∈ memory_ids := by
          rw [hsnap] at hmid
          exact hmid
        have := List.find?_eq_none.mp hfind mid hmid'
        simp only [Bool.not_eq_true', Bool.not_eq_false, List.any_eq_true,
          beq_iff_eq] at this
        exact this
      · rw [hst2]
        exact List.mem_append_right _ (List.mem_singleton.mpr rfl)

/-- Claim C6 witness: the amended theorem's success direction applied at a
store holding `m1` and a creation request for exactly `["m1"]`: the stored
snapshot's refs all resolve and the snapshot is stored. -/
theorem c6_witness :
    (∀ mid ∈ createdSnap.memory_refs, ∃ m ∈ snapMgrM1.memories, m.id = mid) ∧
    createdSnap ∈ snapMgrM1After.snapshots :=
  (c6_create_snapshot_validates snapMgrM1 ["k"] ["m1"] "c" (1 / 2) "s1" 0).2
    createdSnap snapMgrM1After rfl

/-- Claim C10: `FileMemoryStore.delete` returns `True` in every
non-exceptional run — including when no memory with the id exists — and when
the id is absent from both the memory files and `memory_snapshot_index` the
store is left unchanged.  (`False` arises only from an I/O exception, outside
this model.) -/
theorem c10_delete_nonexistent_returns_true (st : FileStoreState)
    (memory_id : String) :
    (FileMemoryStore.delete st memory_id).1 = true ∧
    ((∀ m ∈ st.memories, m.memoryId ≠ memory_id) →
     (∀ p ∈ st.memory_snapshot_index, p.1 ≠ memory_id) →
     (FileMemoryStore.delete st memory_id).2 = st) := by
  constructor
  · unfold FileMemoryStore.delete
    cases hfind : st.memory_snapshot_index.find? (fun p => p.1 == memory_id) <;>
      simp [hfind]
  · intro hmem hidx
    unfold FileMemoryStore.delete
    have hfind : st.memory_snapshot_index.find? (fun p => p.1 == memory_id) = none := by
      rw [List.find?_eq_none]
      intro p hp
      simp only [beq_iff_eq]
      exact hidx p hp
    rw [hfind]
    have hfil : st.memories.filter (fun m => !(m.memoryId == memory_id)) =
        st.memories := by
      apply List.filter_eq_self.mpr
      intro m hm
      simp only [Bool.not_eq_true', beq_eq_false_iff_ne, ne_eq]
      exact hmem m hm
    simp [hfil]

/-- Claim C10 witness: deleting the nonexistent id `"nope"` from a store
holding `m1` reports success and leaves the store unchanged. -/
theorem c10_witness :
    (FileMemoryStore.delete fsWithM1 "nope").1 = true ∧
    (FileMemoryStore.delete fsWithM1 "nope").2 = fsWithM1 :=
  ⟨(c10_delete_nonexistent_returns_true fsWithM1 "nope").1,
   (c10_delete_nonexistent_returns_true fsWithM1 "nope").2
     (by simp [fsWithM1, sampleMemory]) (by simp [fsWithM1])⟩

/-- Claim C7: a second consolidation run in immediate succession (within
`update_interval` of a first run that was due and saw a non-empty store) is a
no-op: `update_snapshots` returns at the `now - last_update <
update_interval` guard, so no `DetailSnapshot` or `BaseSnapshot` objects can
be created — whatever the cycle body does. -/
theorem c7_second_run_is_noop {σ : Type} (listMemories : σ → List Memory)
    (cycleBody : σ → ℤ → σ) (updateInterval : ℤ) (s : SMState σ) (t1 t2 : ℤ)
    (h1 : updateInterval ≤ t1 - s.lastUpdate)
    (h2 : (listMemories s.store).isEmpty = false)
    (h3 : t2 - t1 < updateInterval) :
    SnapshotManager.update_snapshots listMemories cycleBody updateInterval
      (SnapshotManager.update_snapshots listMemories cycleBody updateInterval s t1)
      t2 =
    SnapshotManager.update_snapshots listMemories cycleBody updateInterval s t1 := by
  have hfirst : SnapshotManager.update_snapshots listMemories cycleBody
      updateInterval s t1 = { lastUpdate := t1, store := cycleBody s.store t1 } := by
    unfold SnapshotManager.update_snapshots
    rw [if_neg (not_lt.mpr h1), h2]
    simp
  rw [hfirst]
  unfold SnapshotManager.update_snapshots
  simp only [if_pos h3]

/-- Claim C7 witness: a one-memory store, interval 3600s, first run at t=3600
(due, since `last_update = 0`), second run at t=3601. -/
theorem c7_witness :
    SnapshotManager.update_snapshots (fun st : List Memory => st)
      (fun st _ => st) 3600
      (SnapshotManager.update_snapshots (fun st : List Memory => st)
        (fun st _ => st) 3600 ⟨0, [sampleMemory]⟩ 3600) 3601 =
    SnapshotManager.update_snapshots (fun st : List Memory => st)
      (fun st _ => st) 3600 ⟨0, [sampleMemory]⟩ 3600 :=
  c7_second_run_is_noop (fun st => st) (fun st _ => st) 3600 ⟨0, [sampleMemory]⟩
    3600 3601 (by norm_num) rfl (by norm_num)

/-- Membership after a Python dict assignment: an old entry or the new one. -/
theorem mem_assocUpsert {α : Type} {l : List (String × α)} {k : String} {v : α}
    {e : String × α} (h : e ∈ assocUpsert l k v) : e ∈ l ∨ e = (k, v) := by
  unfold assocUpsert at h
  split at h
  · obtain ⟨p, hp, he⟩ := List.mem_map.mp h
    by_cases hk : p.1 == k
    · right
      rw [← he]
      simp [hk]
    · left
      rw [← he]
      simpa [hk] using hp
  · rcases List.mem_append.mp h with h | h
    · left; exact h
    · right; simpa using h

/-- Claim C9: `add_memory` clears the whole query cache before anything else,
so after an add at time `addTime`, however many searches and cache cleanups
follow (each at a time not before the add), every entry in the cache was
created at or after `addTime`.  A cache-served search result always comes
from a cache entry, so no search after the add is served from an entry
created before it — even an identical key whose pre-add entry was still
within the TTL. -/
theorem c9_add_invalidates_cache {σ : Type} (compute : σ → String → List String)
    (cacheTtl : ℤ) (applyAdd : σ → σ) (st : RetrieverState σ) (addTime : ℤ)
    (ops : List RetrieverOp) (hops : ∀ op ∈ ops, addTime ≤ op.time) :
    ∀ e ∈ (MemoryRetriever.run compute cacheTtl
        (MemoryRetriever.add_memory applyAdd st) ops).cache,
      addTime ≤ e.2.2 := by
  suffices H : ∀ (ops2 : List RetrieverOp) (st2 : RetrieverState σ),
      (∀ op ∈ ops2, addTime ≤ op.time) →
      (∀ e ∈ st2.cache, addTime ≤ e.2.2) →
      ∀ e ∈ (MemoryRetriever.run compute cacheTtl st2 ops2).cache,
        addTime ≤ e.2.2 by
    exact H ops (MemoryRetriever.add_memory applyAdd st) hops
      (by simp [MemoryRetriever.add_memory])
  intro ops2
  induction ops2 with
  | nil =>
    intro st2 _ hinv e he
    exact hinv e he
  | cons op rest ih =>
    intro st2 hops2 hinv
    cases op with
    | search k t =>
      refine ih _ (fun o ho => hops2 o (List.mem_cons_of_mem _ ho)) ?_
      intro e he
      have ht : addTime ≤ t := hops2 _ (List.mem_cons_self _ _)
      unfold MemoryRetriever.search_memories at he
      dsimp only at he
      split at he
      · split at he
        · exact hinv e he
        · rcases mem_assocUpsert he with h | h
          · exact hinv e h
          · rw [h]; exact ht
      · rcases mem_assocUpsert he with h | h
        · exact hinv e h
        · rw [h]; exact ht
    | cleanup t =>
      refine ih _ (fun o ho => hops2 o (List.mem_cons_of_mem _ ho)) ?_
      intro e he
      unfold MemoryRetriever.cleanup_cache at he
      exact hinv e (List.mem_filter.mp he).1

/-- Claim C9 witness: a retriever whose cache holds a stale-by-content but
TTL-fresh entry for key `"q"` created at t=0; after `add_memory` at t=5 and a
search of the same key at t=5, the only cache entry is the one created at
t=5 — the pre-add entry is gone. -/
theorem c9_witness :
    (5 : ℤ) ≤ (("q", (["r"], (5 : ℤ))) : String × (List String × ℤ)).2.2 :=
  c9_add_invalidates_cache (fun (_ : ℕ) _ => ["r"]) 3600 id
    ⟨[("q", (["old"], 0))], 0⟩ 5 [.search "q" 5]
    (by
      intro op hop
      simp only [List.mem_singleton] at hop
      rw [hop]
      norm_num [RetrieverOp.time])
    ("q", (["r"], 5))
    (by simp [MemoryRetriever.run, MemoryRetriever.add_memory,
      MemoryRetriever.search_memories, assocUpsert])

/-- A squared L2 distance is nonnegative. -/
theorem sqDist_nonneg (u v : List ℚ) : 0 ≤ sqDist u v := by
  apply List.sum_nonneg
  intro x hx
  obtain ⟨p, _, rfl⟩ := List.mem_map.mp hx
  positivity

/-- Claim C4 counterexample: with two stored memories, `top_k = 1` and
threshold 0.6, `VectorStore.search` returns both entries — one more than
`top_k` — and the second returned score, 1/5, is below the threshold: the
`threshold` parameter is ignored and no truncation to `top_k` happens,
refuting the claim at this concrete input. -/
theorem c4_counterexample :
    VectorStore.search [⟨"m1", [0], none⟩, ⟨"m2", [2], none⟩] [0] 1 (6 / 10) =
      [(⟨"m1", [0], none⟩, 1), (⟨"m2", [2], none⟩, 1 / 5)] ∧
    (1 : ℕ) < 2 ∧ (1 : ℚ) / 5 < 6 / 10 := by
  refine ⟨?_, by norm_num, by norm_num⟩
  norm_num [VectorStore.search, faissSearch, scoreOfDist, sqDist, distLe, scoreGe,
    List.insertionSort, List.orderedInsert]

/-- Claim C4 (amended): the returned scores are non-increasing, but the other
three parts of the claim fail in general: the result has exactly
`min(top_k * 2, len(store))` entries (no `top_k` truncation and no threshold
filtering), and scores lie in `(0, 1]` only before the importance boost —
with importances in `[0, 1]` the final scores lie in `(0, 1.2]`. -/
theorem c4_search_sorted_but_unfiltered (store : List VMemory) (q : List ℚ)
    (top_k : ℕ) (threshold : ℚ) :
    List.Sorted scoreGe (VectorStore.search store q top_k threshold) ∧
    (VectorStore.search store q top_k threshold).length =
      min (top_k * 2) store.length ∧
    ((∀ m ∈ store, ∀ imp, m.importance = some imp → 0 ≤ imp ∧ imp ≤ 1) →
      ∀ x ∈ VectorStore.search store q top_k threshold,
        0 < x.2 ∧ x.2 ≤ 6 / 5) := by
  refine ⟨List.sorted_insertionSort scoreGe _, ?_, ?_⟩
  · unfold VectorStore.search
    rw [(List.perm_insertionSort scoreGe _).length_eq, List.length_map]
    unfold faissSearch
    rw [List.length_take, (List.perm_insertionSort distLe _).length_eq,
      List.length_map]
    omega
  · intro himp x hx
    unfold VectorStore.search at hx
    rw [(List.perm_insertionSort scoreGe _).mem_iff] at hx
    obtain ⟨⟨m, d⟩, hmd, hxeq⟩ := List.mem_map.mp hx
    unfold faissSearch at hmd
    have hmd2 := List.take_subset _ _ hmd
    rw [(List.perm_insertionSort distLe _).mem_iff] at hmd2
    obtain ⟨m2, hm2, heq⟩ := List.mem_map.mp hmd2
    cases heq
    subst hxeq
    have hd0 : 0 ≤ sqDist q m.vector := sqDist_nonneg _ _
    have hsimpos : 0 < 1 / (1 + sqDist q m.vector) := by positivity
    have hsimle : 1 / (1 + sqDist q m.vector) ≤ 1 := by
      rw [div_le_one (by linarith)]
      linarith
    cases him : m.importance with
    | none =>
      simp only [scoreOfDist, him]
      exact ⟨hsimpos, by linarith⟩
    | some imp =>
      obtain ⟨h0, h1i⟩ := himp m hm2 imp him
      simp only [scoreOfDist, him]
      constructor
      · exact mul_pos hsimpos (by linarith)
      · calc 1 / (1 + sqDist q m.vector) * (1 + imp * (2 / 10)) ≤ 1 * (6 / 5) :=
              mul_le_mul hsimle (by linarith) (by linarith) (by norm_num)
          _ = 6 / 5 := one_mul _

/-- Claim C4 witness: the amended theorem at the counterexample's inputs —
the result length is `min(2*1, 2) = 2`, and the returned entry with score 1/5
(a member of the result) is within `(0, 1.2]`. -/
theorem c4_witness :
    (VectorStore.search [⟨"m1", [0], none⟩, ⟨"m2", [2], none⟩] [0] 1
        (6 / 10)).length =
      min (1 * 2) ([⟨"m1", [0], none⟩, ⟨"m2", [2], none⟩] : List VMemory).length ∧
    (0 < ((⟨"m2", [2], none⟩ : VMemory), (1 : ℚ) / 5).2 ∧
      ((⟨"m2", [2], none⟩ : VMemory), (1 : ℚ) / 5).2 ≤ 6 / 5) :=
  ⟨(c4_search_sorted_but_unfiltered [⟨"m1", [0], none⟩, ⟨"m2", [2], none⟩]
      [0] 1 (6 / 10)).2.1,
   (c4_search_sorted_but_unfiltered [⟨"m1", [0], none⟩, ⟨"m2", [2], none⟩]
      [0] 1 (6 / 10)).2.2
     (by
       intro m hm imp him
       rcases List.mem_cons.mp hm with h | h
       · rw [h] at him
         exact absurd him (by simp)
       · rcases List.mem_cons.mp h with h2 | h2
         · rw [h2] at him
           exact absurd him (by simp)
         · simp at h2)
     (⟨"m2", [2], none⟩, 1 / 5)
     (by norm_num [VectorStore.search, faissSearch, scoreOfDist, sqDist, distLe,
       scoreGe, List.insertionSort, List.orderedInsert])⟩

/-- For any positive elapsed time, the code's decay factor (seconds/86400,
i.e. days) differs from the specification's hours-based factor. -/
theorem timeFactor_ne_specHours {d : ℚ} (hd : 0 < d) :
    timeFactor d ≠ specHoursFactor d := by
  unfold timeFactor specHoursFactor
  have hdR : (0 : ℝ) < (d : ℝ) := by exact_mod_cast hd
  have hlt : (d : ℝ) / (24 * 3600) < (d : ℝ) / 3600 :=
    div_lt_div_of_pos_left hdR (by norm_num) (by norm_num)
  have ha : (0 : ℝ) < 1 + (d : ℝ) / (24 * 3600) := by positivity
  have hlog : Real.log (1 + (d : ℝ) / (24 * 3600)) <
      Real.log (1 + (d : ℝ) / 3600) :=
    Real.log_lt_log ha (by linarith)
  have hdiv : (0 : ℝ) ≤ (d : ℝ) / (24 * 3600) := by positivity
  have hlog0 : (0 : ℝ) ≤ Real.log (1 + (d : ℝ) / (24 * 3600)) :=
    Real.log_nonneg (by linarith)
  have hpos1 : (0 : ℝ) < 1 + Real.log (1 + (d : ℝ) / (24 * 3600)) := by linarith
  have hgt : 1 / (1 + Real.log (1 + (d : ℝ) / 3600)) <
      1 / (1 + Real.log (1 + (d : ℝ) / (24 * 3600))) :=
    one_div_lt_one_div_of_lt hpos1 (by linarith)
  exact ne_of_gt hgt

/-- Claim C8 counterexample: a memory created 86400 seconds (24 hours) before
now, score 1, no context boosts: `_rerank_with_context` multiplies by
`1/(1+log(1+1))` — the elapsed time entered the formula in *days* — which is
not the claim's `1/(1+log(1+24))` with the time in hours. -/
theorem c8_counterexample :
    MemoryRetriever.rerank_score
      { timestamp := some 0, meta_user_id := none, meta_session_id := none,
        meta_topic := none, has_api_call := false } 1
      { user_id := none, session_id := none, topic := none,
        enable_api_call := false } 86400 ≠ specHoursFactor 86400 := by
  have hne := timeFactor_ne_specHours (d := 86400) (by norm_num)
  have heq : MemoryRetriever.rerank_score
      { timestamp := some 0, meta_user_id := none, meta_session_id := none,
        meta_topic := none, has_api_call := false } 1
      { user_id := none, session_id := none, topic := none,
        enable_api_call := false } 86400 = timeFactor 86400 := by
    unfold MemoryRetriever.rerank_score timeFactor
    norm_num [fieldMatch, topicMatch]
  rw [heq]
  exact hne

/-- Claim C8 (amended): in the re-ranking step the score of an entry with a
timestamp is multiplied by the time-decay factor
`1/(1 + log(1 + secondsSinceCreation/86400))` — the elapsed time is measured
in *days*, not hours — together with the context boosts; and for every
positive elapsed time the days-based factor the code applies differs from
the hours-based factor the claim states. -/
theorem c8_decay_uses_days :
    (∀ (m : RerankMemory) (score : ℝ) (ctx : RerankContext) (now ts : ℚ),
      m.timestamp = some ts →
      MemoryRetriever.rerank_score m score ctx now =
        score * timeFactor (now - ts) * (boostFactor m ctx : ℝ)) ∧
    (∀ d : ℚ, 0 < d → timeFactor d ≠ specHoursFactor d) := by
  constructor
  · intro m score ctx now ts hts
    unfold MemoryRetriever.rerank_score timeFactor boostFactor
    rw [hts]
    by_cases h1 : fieldMatch ctx.user_id m.meta_user_id = true <;>
      by_cases h2 : fieldMatch ctx.session_id m.meta_session_id = true <;>
        by_cases h3 : topicMatch ctx.topic m.meta_topic = true <;>
          by_cases h4 : (ctx.enable_api_call && m.has_api_call) = true <;>
            simp only [h1, h2, h3, h4, if_true, if_false,
              Bool.not_eq_true] <;>
              push_cast <;> ring
  · exact fun d hd => timeFactor_ne_specHours hd

/-- Claim C8 witness: the amended theorem applied at a concrete memory
(created at t=0, no boosts), score 1, now = 86400 s, and at elapsed time
86400 s for the inequality of the two decay formulas. -/
theorem c8_witness :
    MemoryRetriever.rerank_score
      { timestamp := some 0, meta_user_id := none, meta_session_id := none,
        meta_topic := none, has_api_call := false } 1
      { user_id := none, session_id := none, topic := none,
        enable_api_call := false } 86400 =
      1 * timeFactor (86400 - 0) *
        ((boostFactor
          { timestamp := some 0, meta_user_id := none, meta_session_id := none,
            meta_topic := none, has_api_call := false }
          { user_id := none, session_id := none, topic := none,
            enable_api_call := false } : ℚ) : ℝ) ∧
    timeFactor 86400 ≠ specHoursFactor 86400 :=
  ⟨c8_decay_uses_days.1 _ 1 _ 86400 0 rfl,
   c8_decay_uses_days.2 86400 (by norm_num)⟩
